import Mathlib

/-!
Shallow embedding of `src/files/compose/validateDappnodeCompose.ts`:
the dappnode compose policy validation engine, together with proofs of the
claims about it.

The compose / manifest / params type declarations of the repository are not
part of `src/`; the data model below follows the spec (section 3) where those
declarations are missing, and every rule function is a direct translation of
the TypeScript in `validateDappnodeCompose.ts`, including its JavaScript
evaluation details (truthiness, `Object.values`, strict equality, the shared
mutable aggregate error, and the `catch` block's message rewriting).
-/

namespace DappnodeCompose

/-- Modelled from the spec: a service `networks` entry is either a bare
network-name string or a network-reference object mapping a network name to
its `aliases` sequence (an absent `aliases` behaves as the empty sequence
under the source's `alias && ...` guard). The `types` module is not in
`src/`. -/
inductive NetRef where
  | byName : String → NetRef
  | detailed : List (String × List String) → NetRef

/-- Modelled from the spec: the value stored under one key of a compose
service object. Recognized keys carry the types of spec section 3: strings
(`dns`, `pid`, `network_mode`, `image`, ...), booleans (`privileged`),
the `volumes` sequence (entries may be null, hence `Option`), the
`networks` sequence, and nested objects (`environment`, `labels`, ...). -/
inductive SVal where
  | str : String → SVal
  | bool : Bool → SVal
  | vols : List (Option String) → SVal
  | nets : List (Option NetRef) → SVal
  | obj : List (String × SVal) → SVal

/-- A compose service: a free-form ordered mapping of keys to values
(spec section 3). `Object.keys` is the list of first components,
`Object.values` the list of second components, in insertion order. -/
abbrev Service := List (String × SVal)

/-- Modelled from the spec: a top-level network definition carries an
`external` boolean; the source only reads `network.external === false`,
so an absent flag is `none`. -/
structure NetworkDef where
  external : Option Bool

/-- Modelled from the spec: an already-parsed compose structure.
Top-level `networks` and `volumes` mappings are optional (JavaScript
`undefined` is `none`); a volume definition carries no data the validator
reads, so the top-level volume mapping is modelled by its ordered key
list. -/
structure Compose where
  version : String
  networks : Option (List (String × NetworkDef))
  volumes : Option (List String)
  services : List (String × Service)

/-- Modelled from the spec: the Policy Parameters module (`./params`) is not
under `src/`; validation is parametrized over it (spec sections 2 and 6). -/
structure Params where
  MINIMUM_COMPOSE_FILE_VERSION : String
  DOCKER_WHITELIST_NETWORKS : List String
  DOCKER_CORE_ALIASES : List String
  SAFE_KEYS : List String
  DNS_SERVICE : String

deriving instance DecidableEq for Except

/-- JavaScript `s.startsWith(pre)`. -/
def jsStartsWith (s pre : String) : Bool :=
  pre.data.isPrefixOf s.data

/-- JavaScript `Array.prototype.join(sep)` on strings: the empty array joins
to the empty string. -/
def jsJoin (sep : String) : List String → String
  | [] => ""
  | [x] => x
  | x :: y :: rest => x ++ sep ++ jsJoin sep (y :: rest)

/-- JavaScript `Array.prototype.flat()` restricted to one level over string
arrays. -/
def flatOne : List (List String) → List String
  | [] => []
  | x :: xs => x ++ flatOne xs

/-- The violations the validator can push, one constructor per `push` site of
the source, carrying the data interpolated into its message. -/
inductive Violation where
  | versionTooLow (declared : String)
  | networkNotWhitelisted
  | networkNotExternal
  | serviceKeyNotAllowed (svc : String)
  | dnsMismatch (svc : String)
  | pidNotAllowed (svc : String)
  | privilegedNotAllowed (svc : String)
  | networkModeHostNotAllowed (svc : String)
  | serviceNetworkNotWhitelisted (svc : String)
  | reservedAliasUsed (svc : String)
  | volumeMissingTopLevelDefinition (svc : String)
  | volumeNameMissing (svc : String)
  | bindMountNotAllowed (svc : String) (vol : String)
deriving DecidableEq

/-- The exact message template of each `Error(...)` in the source
(typos included). -/
def violationMessage (p : Params) : Violation → String
  | .versionTooLow v =>
      "Compose version " ++ v ++ " is not supported. Minimum version is " ++
        p.MINIMUM_COMPOSE_FILE_VERSION
  | .networkNotWhitelisted =>
      "Only docker networks " ++ jsJoin "," p.DOCKER_WHITELIST_NETWORKS ++
        " are allowed"
  | .networkNotExternal => "Docker internal networks are not allowed"
  | .serviceKeyNotAllowed s =>
      "Compose service " ++ s ++ " has keys that are not allowed. Allowed keys are: " ++
        jsJoin "," p.SAFE_KEYS
  | .dnsMismatch s =>
      "Compose service " ++ s ++ " has DNS different than " ++ p.DNS_SERVICE
  | .pidNotAllowed s =>
      "Compose service " ++ s ++ " hasPID feature differnet than service:*"
  | .privilegedNotAllowed s =>
      "Compose service " ++ s ++ " has privileged as true but is not a core package"
  | .networkModeHostNotAllowed s =>
      "Compose service " ++ s ++ " has network_mode: host but is not a core package"
  | .serviceNetworkNotWhitelisted s =>
      "Compose service " ++ s ++
        " has a non-whitelisted docker network. Only docker networks " ++
        jsJoin "," p.DOCKER_WHITELIST_NETWORKS ++ " are allowed"
  | .reservedAliasUsed s =>
      "Compose service " ++ s ++ " has a reserved docker alias. Aliases " ++
        jsJoin "," p.DOCKER_CORE_ALIASES ++ " are reserved to core packages"
  | .volumeMissingTopLevelDefinition s =>
      "Compose service " ++ s ++
        " has a volume not allowed. All docker volumes defined at the service level must be defined also at the top level volumes"
  | .volumeNameMissing s =>
      "Compose service " ++ s ++ " has a volume without name"
  | .bindMountNotAllowed s v =>
      "Compose service " ++ s ++
        " has a bind-mounted volume, Bind.mounted volumes are not allowed. Make sure the compose service volume " ++
        v ++ " is defined in the top level volumes"

/-- Splitting a character list on a separator, with JavaScript
`String.prototype.split` semantics: the empty string yields one empty
segment, and a leading separator yields a leading empty segment. -/
def jsSplitChars (sep : Char) : List Char → List (List Char)
  | [] => [[]]
  | c :: rest =>
    let r := jsSplitChars sep rest
    if c == sep then [] :: r
    else
      match r with
      | [] => [[c]]
      | g :: gs => (c :: g) :: gs

/-- JavaScript `s.split(sep)` for a one-character separator. -/
def jsSplit (s : String) (sep : Char) : List String :=
  (jsSplitChars sep s.data).map String.mk

/-- A decimal numeral: a non-empty, all-digit character list, read as a
natural number. -/
def parseNatChars (cs : List Char) : Option Nat :=
  if cs == [] then none
  else if cs.all (fun c => c.isDigit) then
    some (cs.foldl (fun a c => a * 10 + (c.toNat - 48)) 0)
  else none

/-- Model of `semver` parsing restricted to plain numeric dotted triples,
the only shape the validator ever produces for valid compose versions after
its unconditional `+ ".0"` append; any other shape (too few or too many
components, non-digits) is an invalid version, as in `node-semver`,
and makes the comparison throw. Prerelease and build forms never arise. -/
def semverParse (s : String) : Option (Nat × Nat × Nat) :=
  match (jsSplitChars '.' s.data).map parseNatChars with
  | [some a, some b, some c] => some (a, b, c)
  | _ => none

/-- Model of `semver.lt` on parsed versions: lexicographic order on
(major, minor, patch). -/
def semverLtB (x y : Nat × Nat × Nat) : Bool :=
  decide (x.1 < y.1) ||
    (decide (x.1 = y.1) &&
      (decide (x.2.1 < y.2.1) || (decide (x.2.1 = y.2.1) && decide (x.2.2 < y.2.2))))

/-- `validateComposeVersion` (source lines 56-68): appends `".0"` to both the
declared and the minimum version unconditionally and compares with
`semver.lt`; an unparseable normalized version makes `semver.lt` throw
`Invalid Version` (modelled as `Except.error`; `semver.lt` parses its first
argument first). -/
def validateComposeVersion (p : Params) (c : Compose) : Except String (List Violation) :=
  match semverParse (c.version ++ ".0") with
  | none => Except.error ("Invalid Version: " ++ c.version ++ ".0")
  | some v =>
    match semverParse (p.MINIMUM_COMPOSE_FILE_VERSION ++ ".0") with
    | none => Except.error ("Invalid Version: " ++ p.MINIMUM_COMPOSE_FILE_VERSION ++ ".0")
    | some w =>
      Except.ok (if semverLtB v w then [Violation.versionTooLow c.version] else [])

/-- `validateComposeNetworks` (source lines 73-97): when the top-level
`networks` mapping is present (an empty mapping is still truthy), two
independent `some` checks, each pushing at most one violation. -/
def validateComposeNetworks (p : Params) (c : Compose) : List Violation :=
  match c.networks with
  | none => []
  | some nets =>
    (if nets.any (fun x => !(p.DOCKER_WHITELIST_NETWORKS.contains x.1)) then
        [Violation.networkNotWhitelisted]
      else []) ++
    (if nets.any (fun x => x.2.external == some false) then
        [Violation.networkNotExternal]
      else [])

/-- `compose.services[cpServiceName]`; the orchestrator only passes names
obtained from `Object.keys(compose.services)`, so the lookup never misses
there. -/
def lookupService (c : Compose) (name : String) : Service :=
  (c.services.lookup name).getD []

/-- `validateComposeServicesKeys` (source lines 102-119). -/
def validateComposeServicesKeys (p : Params) (c : Compose) (name : String) :
    List Violation :=
  if (lookupService c name).any (fun kv => !(p.SAFE_KEYS.contains kv.1)) then
    [Violation.serviceKeyNotAllowed name]
  else []

/-- JavaScript property access on a field value: only objects have the
properties the values rule reads; on strings, booleans and arrays the access
yields `undefined` (`none`). -/
def jsGetProp : SVal → String → Option SVal
  | .obj fields, k => fields.lookup k
  | _, _ => none

/-- JavaScript truthiness of a field value: the empty string and `false` are
falsy; arrays and objects (even empty) are truthy. -/
def svalTruthy : SVal → Bool
  | .str s => s != ""
  | .bool b => b
  | .vols _ => true
  | .nets _ => true
  | .obj _ => true

/-- One element of the source's `service.dns && service.dns !== params.DNS_SERVICE`:
strict inequality with a string holds for every non-string value. -/
def dnsBad (p : Params) (v : SVal) : Bool :=
  match jsGetProp v "dns" with
  | none => false
  | some (.str s) => s != "" && s != p.DNS_SERVICE
  | some w => svalTruthy w

/-- One element of `service.pid && !service.pid.startsWith("service:")`:
calling `.startsWith` on a truthy non-string throws a `TypeError`. -/
def pidCheck (v : SVal) : Except String Bool :=
  match jsGetProp v "pid" with
  | none => Except.ok false
  | some (.str s) => Except.ok (s != "" && !(jsStartsWith s "service:"))
  | some w =>
    if svalTruthy w then Except.error "cpServiceValue.pid.startsWith is not a function"
    else Except.ok false

/-- One element of `service.privileged === true`. -/
def privTrue (v : SVal) : Bool :=
  match jsGetProp v "privileged" with
  | some (.bool true) => true
  | _ => false

/-- One element of `service.network_mode === "host"`. -/
def netModeHost (v : SVal) : Bool :=
  match jsGetProp v "network_mode" with
  | some (.str s) => s == "host"
  | _ => false

/-- `Array.prototype.some` with a callback that can throw, short-circuiting
on the first truthy result or the first throw. -/
def anyExcept (f : α → Except String Bool) : List α → Except String Bool
  | [] => Except.ok false
  | x :: xs =>
    match f x with
    | Except.error e => Except.error e
    | Except.ok true => Except.ok true
    | Except.ok false => anyExcept f xs

/-- `validateComposeServicesValues` (source lines 124-173). Note the source
computes `Object.values(compose.services[cpServiceName])` — the list of the
service's own field values — and then reads `.dns`, `.pid`, `.privileged`
and `.network_mode` on each of those values, not on the service object.
Returns the violations pushed before a possible thrown `TypeError` from the
`pid` check, plus that error when it occurs (the later checks then never
run). -/
def validateComposeServicesValues (p : Params) (c : Compose) (isCore : Bool)
    (name : String) : List Violation × Option String :=
  let vals := (lookupService c name).map (fun kv => kv.2)
  let e1 := if vals.any (dnsBad p) then [Violation.dnsMismatch name] else []
  match anyExcept pidCheck vals with
  | Except.error m => (e1, some m)
  | Except.ok pidBad =>
    let e2 := if pidBad then [Violation.pidNotAllowed name] else []
    let e3 :=
      if !isCore && vals.any privTrue then [Violation.privilegedNotAllowed name] else []
    let e4 :=
      if !isCore && vals.any netModeHost then
        [Violation.networkModeHostNotAllowed name]
      else []
    (e1 ++ (e2 ++ (e3 ++ e4)), none)

/-- The service's `networks` value, when present and a sequence
(spec section 3 types it so); an absent or falsy value makes the rule
return early. -/
def svcNetworks (svc : Service) : Option (List (Option NetRef)) :=
  match svc.lookup "networks" with
  | some (.nets l) => some l
  | _ => none

/-- The loop body of `validateComposeServicesNetworks` (source lines
187-235): falsy entries (null, the empty string) are skipped; a bare name
must be whitelisted; for an object entry every key must be whitelisted and,
for non-core packages, no alias may be core-reserved. -/
def netLoop (p : Params) (isCore : Bool) (name : String) :
    List (Option NetRef) → List Violation
  | [] => []
  | none :: rest => netLoop p isCore name rest
  | some (NetRef.byName s) :: rest =>
    if s == "" then netLoop p isCore name rest
    else
      (if !(p.DOCKER_WHITELIST_NETWORKS.contains s) then
          [Violation.serviceNetworkNotWhitelisted name]
        else []) ++
      netLoop p isCore name rest
  | some (NetRef.detailed m) :: rest =>
    (if m.any (fun kv => !(p.DOCKER_WHITELIST_NETWORKS.contains kv.1)) then
        [Violation.serviceNetworkNotWhitelisted name]
      else []) ++
    ((if !isCore &&
          (flatOne (m.map (fun kv => kv.2))).any
            (fun a => a != "" && p.DOCKER_CORE_ALIASES.contains a) then
        [Violation.reservedAliasUsed name]
      else []) ++
      netLoop p isCore name rest)

/-- `validateComposeServicesNetworks` (source lines 178-236). -/
def validateComposeServicesNetworks (p : Params) (c : Compose) (isCore : Bool)
    (name : String) : List Violation :=
  match svcNetworks (lookupService c name) with
  | none => []
  | some entries => netLoop p isCore name entries

/-- The service's `volumes` value, when present and a sequence
(spec section 3 types it so); an absent or falsy value makes the rule
return early. -/
def svcVolumes (svc : Service) : Option (List (Option String)) :=
  match svc.lookup "volumes" with
  | some (.vols l) => some l
  | _ => none

/-- The loop of `validateComposeAndComposeServicesVolumes` (source lines
250-277): falsy entries (null, the empty string) are skipped; with no
top-level volume mapping the loop pushes one violation and returns
(unconditionally, `isCore` is not consulted); otherwise the empty-first-
segment check and the non-core bind-mount check both run — there is no
`else` between them. -/
def volLoop (p : Params) (isCore : Bool) (name : String)
    (top : Option (List String)) : List (Option String) → List Violation
  | [] => []
  | none :: rest => volLoop p isCore name top rest
  | some s :: rest =>
    if s == "" then volLoop p isCore name top rest
    else
      match top with
      | none => [Violation.volumeMissingTopLevelDefinition name]
      | some names =>
        let volName := (jsSplit s ':').headD ""
        (if volName == "" then [Violation.volumeNameMissing name] else []) ++
        ((if !isCore && !(names.contains volName) then
            [Violation.bindMountNotAllowed name volName]
          else []) ++
          volLoop p isCore name top rest)

/-- `validateComposeAndComposeServicesVolumes` (source lines 241-278). -/
def validateComposeAndComposeServicesVolumes (p : Params) (c : Compose)
    (isCore : Bool) (name : String) : List Violation :=
  match svcVolumes (lookupService c name) with
  | none => []
  | some vols => volLoop p isCore name c.volumes vols

/-- The model of the global `aggregatedError`: its `errors` array and its
`message` string. A fresh `new AggregateError([])` is `⟨[], ""⟩`. -/
structure AggState where
  errors : List Violation
  message : String
deriving DecidableEq

/-- What `validateDappnodeCompose` can throw: a runtime `TypeError` escaping
a rule (invalid semver version, `.startsWith` on a non-string) or the
aggregate error thrown when violations were collected; either way the
`catch` block may rewrite the message. -/
inductive RunErr where
  | typeError (message : String)
  | aggregate (message : String)
deriving DecidableEq

/-- `aggregatedError.errors.join("\n")`: `Array.prototype.join` stringifies
each `Error` via `toString`, producing `"Error: " + message`. -/
def joinErrorStrings (p : Params) (es : List Violation) : String :=
  jsJoin "\n" (es.map (fun v => "Error: " ++ violationMessage p v))

/-- The per-service rule sequence of the orchestrator loop (source lines
33-42): keys, values (which can throw), networks, volumes. A throw keeps the
violations already pushed and skips the rest. -/
def runService (p : Params) (c : Compose) (isCore : Bool) (name : String) :
    List Violation × Option String :=
  let k := validateComposeServicesKeys p c name
  match validateComposeServicesValues p c isCore name with
  | (vs, some m) => (k ++ vs, some m)
  | (vs, none) =>
    (k ++ (vs ++
      (validateComposeServicesNetworks p c isCore name ++
        validateComposeAndComposeServicesVolumes p c isCore name)), none)

/-- The orchestrator's `for` loop over `Object.keys(composeUnsafe.services)`. -/
def runServices (p : Params) (c : Compose) (isCore : Bool) :
    List String → List Violation × Option String
  | [] => ([], none)
  | name :: rest =>
    match runService p c isCore name with
    | (vs, some m) => (vs, some m)
    | (vs, none) =>
      let r := runServices p c isCore rest
      (vs ++ r.1, r.2)

/-- Everything pushed to `aggregatedError.errors` by one run of the rule
functions, in order, together with the message of a runtime error if one was
thrown mid-run (the remaining rules then never execute). -/
def collectAll (p : Params) (c : Compose) (isCore : Bool) :
    List Violation × Option String :=
  match validateComposeVersion p c with
  | Except.error m => ([], some m)
  | Except.ok v1 =>
    let v2 := validateComposeNetworks p c
    let r := runServices p c isCore (c.services.map (fun x => x.1))
    (v1 ++ (v2 ++ r.1), r.2)

/-- `validateDappnodeCompose` (source lines 14-51) with the shared global
`aggregatedError` threaded explicitly as `g`. The run first resets
`aggregatedError.errors = []` (but never `aggregatedError.message`). On a
non-empty collector it throws the aggregate; the `catch` block then executes
`e.message += e.message + "\n" + aggregatedError.errors.join("\n")` — doubling
the error's previous message — and rethrows. A runtime `TypeError` thrown by
a rule receives the same message rewrite when violations were already
collected, and leaves the global message untouched. -/
def validateDappnodeCompose (p : Params) (g : AggState) (c : Compose)
    (isCore : Bool) : Except RunErr Unit × AggState :=
  match collectAll p c isCore with
  | (es, some m) =>
    let m2 := if es.isEmpty then m else m ++ (m ++ ("\n" ++ joinErrorStrings p es))
    (Except.error (RunErr.typeError m2), { errors := es, message := g.message })
  | (es, none) =>
    if es.isEmpty then (Except.ok (), { errors := es, message := g.message })
    else
      let m2 := g.message ++ (g.message ++ ("\n" ++ joinErrorStrings p es))
      (Except.error (RunErr.aggregate m2), { errors := es, message := m2 })

/-- Per the spec (section 6), the aggregate rejection message would be
exactly the ordered list of violation messages concatenated with newline
separators; stated from the spec's words for comparison with the source
behavior. -/
def specAggregateMessage (p : Params) (es : List Violation) : String :=
  jsJoin "\n" (es.map (violationMessage p))

/-- Sample Policy Parameters used only to instantiate witnesses and
counterexamples; every claim theorem quantifies over `Params`. -/
def sampleParams : Params :=
  { MINIMUM_COMPOSE_FILE_VERSION := "3.4"
    DOCKER_WHITELIST_NETWORKS := ["dncore_network"]
    DOCKER_CORE_ALIASES := ["dappmanager.dappnode"]
    SAFE_KEYS := ["image", "volumes", "networks", "dns", "pid", "privileged",
                  "network_mode", "environment", "restart"]
    DNS_SERVICE := "172.33.1.2" }

/-- A compose whose declared version already carries a patch component. -/
def c340 : Compose :=
  { version := "3.4.0", networks := none, volumes := none, services := [] }

/-- A compose whose declared version is below the sample minimum. -/
def c30 : Compose :=
  { version := "3.0", networks := none, volumes := none, services := [] }

/-- A compose declaring a non-whitelisted, explicitly non-external top-level
network and nothing else. -/
def cMynet : Compose :=
  { version := "3.4", networks := some [("mynet", { external := some false })],
    volumes := none, services := [] }

/-- A non-core-style service that sets `privileged: true`. -/
def cPriv : Compose :=
  { version := "3.4", networks := none, volumes := none,
    services := [("myservice",
      [("image", SVal.str "img"), ("privileged", SVal.bool true)])] }

/-- A service that sets `dns` to a value different from the sample required
DNS. -/
def cDns : Compose :=
  { version := "3.4", networks := none, volumes := none,
    services := [("myservice", [("dns", SVal.str "8.8.8.8")])] }

/-- A service volume mount with no top-level volume mapping at all. -/
def cVolNoTop : Compose :=
  { version := "3.4", networks := none, volumes := none,
    services := [("s", [("volumes", SVal.vols [some "data:/data"])])] }

/-- A service volume mount whose first segment is empty, with a top-level
volume mapping present. -/
def cEmptyName : Compose :=
  { version := "3.4", networks := none, volumes := some ["data"],
    services := [("s", [("volumes", SVal.vols [some ":/data"])])] }

theorem validateDappnodeCompose_errors_eq (p : Params) (g : AggState)
    (c : Compose) (b : Bool) :
    (validateDappnodeCompose p g c b).2.errors = (collectAll p c b).1 := by
  unfold validateDappnodeCompose
  rcases h : collectAll p c b with ⟨es, m⟩
  cases m with
  | none =>
    by_cases he : es.isEmpty <;> simp [he]
  | some m => simp

theorem volLoop_top_none (p : Params) (b : Bool) (name : String)
    (vols : List (Option String))
    (h : vols.any (fun e => !(e.getD "" == "")) = true) :
    volLoop p b name none vols = [Violation.volumeMissingTopLevelDefinition name] := by
  induction vols with
  | nil => simp at h
  | cons e rest ih =>
    cases e with
    | none =>
      simp only [List.any_cons] at h
      exact ih (by simpa using h)
    | some s =>
      by_cases hs : s = ""
      · subst hs
        simp only [List.any_cons] at h
        simpa [volLoop] using ih (by simpa using h)
      · simp [volLoop, hs]

/-- C1: the source intends (per its own comments and error message) that a
non-core service with `privileged: true` be flagged `PrivilegedNotAllowed`,
but `validateComposeServicesValues` reads `.privileged` on each element of
`Object.values(compose.services[name])` — the service's field values, which
never carry that property — so nothing is ever pushed: the whole validation
of a non-core compose whose service sets `privileged: true` succeeds with an
empty violation list. -/
theorem claim_privileged_not_flagged :
    (validateDappnodeCompose sampleParams ⟨[], ""⟩ cPriv false).1 = Except.ok () ∧
    (validateDappnodeCompose sampleParams ⟨[], ""⟩ cPriv false).2.errors = [] ∧
    (lookupService cPriv "myservice").lookup "privileged" = some (SVal.bool true) :=
  ⟨by decide, by decide, by rfl⟩

/-- C5: likewise, a service with `dns` set to a value different from the
required `params.DNS_SERVICE` is never flagged `DnsMismatch`: the `.dns`
reads land on the service's field values, so validation of such a compose
succeeds with an empty violation list. -/
theorem claim_dns_not_flagged :
    (validateDappnodeCompose sampleParams ⟨[], ""⟩ cDns false).1 = Except.ok () ∧
    (validateDappnodeCompose sampleParams ⟨[], ""⟩ cDns false).2.errors = [] ∧
    (lookupService cDns "myservice").lookup "dns" = some (SVal.str "8.8.8.8") ∧
    sampleParams.DNS_SERVICE ≠ "8.8.8.8" :=
  ⟨by decide, by decide, by rfl, by decide⟩

/-- C2 counterexample: the source appends `".0"` to the declared version
unconditionally, so a declared version that already has a patch component —
`"3.4.0"` with minimum `"3.4"` — does not compare equal to `"3.4"` with no
violation; the semver comparison throws `Invalid Version: 3.4.0.0`
instead. -/
theorem claim_version_patch_component_cex :
    validateComposeVersion sampleParams c340 =
      Except.error "Invalid Version: 3.4.0.0" := by decide

/-- C2 amended: the rule appends a patch component unconditionally (not only
when major.minor is given), so whenever both normalized strings parse as
semver triples — in particular whenever both versions are plain major.minor
— it emits exactly one `VersionTooLow` violation if the declared version is
strictly below the minimum in semver order, and none otherwise; a declared
version that already carries a patch component instead makes the comparison
throw. -/
theorem claim_version_rule_semver (p : Params) (c : Compose)
    (v w : Nat × Nat × Nat)
    (hv : semverParse (c.version ++ ".0") = some v)
    (hw : semverParse (p.MINIMUM_COMPOSE_FILE_VERSION ++ ".0") = some w) :
    (semverLtB v w = true →
      validateComposeVersion p c = Except.ok [Violation.versionTooLow c.version]) ∧
    (semverLtB v w = false → validateComposeVersion p c = Except.ok []) := by
  unfold validateComposeVersion
  rw [hv, hw]
  constructor <;> intro hlt <;> simp [hlt]

theorem claim_version_rule_semver_witness :
    validateComposeVersion sampleParams c30 =
      Except.ok [Violation.versionTooLow "3.0"] :=
  (claim_version_rule_semver sampleParams c30 (3, 0, 0) (3, 4, 0)
    (by decide) (by decide)).1 (by decide)

/-- C3: a top-level network that is both absent from the whitelist and
explicitly marked `external: false` produces exactly the two violations
`NetworkNotWhitelisted` and `NetworkNotExternal`, in that order — both
checks run even though the first already failed — and a compose with no
top-level network mapping gets no violation from this rule. -/
theorem claim_network_two_violations (p : Params) :
    (∀ (c : Compose) (b : Bool) (g : AggState)
        (nets : List (String × NetworkDef)),
      c.networks = some nets →
      c.services = [] →
      validateComposeVersion p c = Except.ok [] →
      nets.any (fun x => !(p.DOCKER_WHITELIST_NETWORKS.contains x.1)) = true →
      nets.any (fun x => x.2.external == some false) = true →
      (validateDappnodeCompose p g c b).2.errors =
        [Violation.networkNotWhitelisted, Violation.networkNotExternal]) ∧
    (∀ c : Compose, c.networks = none → validateComposeNetworks p c = []) := by
  constructor
  · intro c b g nets h1 h2 h3 h4 h5
    have hnet : validateComposeNetworks p c =
        [Violation.networkNotWhitelisted, Violation.networkNotExternal] := by
      unfold validateComposeNetworks
      simp only [h1]
      rw [h4, h5]
      simp
    rw [validateDappnodeCompose_errors_eq]
    unfold collectAll
    rw [h3, h2, hnet]
    simp [runServices]
  · intro c h
    simp [validateComposeNetworks, h]

theorem claim_network_two_violations_witness :
    (validateDappnodeCompose sampleParams ⟨[], ""⟩ cMynet false).2.errors =
      [Violation.networkNotWhitelisted, Violation.networkNotExternal] :=
  (claim_network_two_violations sampleParams).1 cMynet false ⟨[], ""⟩
    [("mynet", { external := some false })] rfl rfl (by decide) (by decide) (by decide)

/-- C9: the top-level network rule pushes via two `some` checks, so however
many declared networks are non-whitelisted or explicitly non-external, it
emits at most one `NetworkNotWhitelisted` and at most one
`NetworkNotExternal` violation per run. -/
theorem claim_network_rule_at_most_one_each (p : Params) (c : Compose) :
    (validateComposeNetworks p c).count Violation.networkNotWhitelisted ≤ 1 ∧
    (validateComposeNetworks p c).count Violation.networkNotExternal ≤ 1 := by
  unfold validateComposeNetworks
  rcases h : c.networks with _ | nets
  · simp
  · simp only [h]
    constructor <;> (split <;> split <;> decide)

/-- C4: when the compose has no top-level volume mapping at all, a service
with at least one non-null, non-empty volume mount gets exactly one
`VolumeMissingTopLevelDefinition` violation and the loop stops before any
further mount of that service, for core and non-core packages alike
(`isCore` is arbitrary). -/
theorem claim_volume_missing_top_level_unconditional (p : Params) (c : Compose)
    (b : Bool) (name : String) (svc : Service) (vols : List (Option String))
    (h1 : c.services.lookup name = some svc)
    (h2 : svcVolumes svc = some vols)
    (h3 : c.volumes = none)
    (h4 : vols.any (fun e => !(e.getD "" == "")) = true) :
    validateComposeAndComposeServicesVolumes p c b name =
      [Violation.volumeMissingTopLevelDefinition name] := by
  unfold validateComposeAndComposeServicesVolumes lookupService
  rw [h1]
  simp only [Option.getD_some]
  rw [h2, h3]
  exact volLoop_top_none p b name vols h4

theorem claim_volume_missing_top_level_unconditional_witness :
    validateComposeAndComposeServicesVolumes sampleParams cVolNoTop true "s" =
      [Violation.volumeMissingTopLevelDefinition "s"] :=
  claim_volume_missing_top_level_unconditional sampleParams cVolNoTop true "s"
    [("volumes", SVal.vols [some "data:/data"])] [some "data:/data"]
    rfl rfl rfl (by decide)

/-- C10: a volume-sequence entry that is null or the empty string is skipped
by the loop's falsiness guard and contributes no violation of any kind: the
loop's result with the entry is the loop's result without it. -/
theorem claim_falsy_volume_entries_skipped (p : Params) (b : Bool)
    (name : String) (top : Option (List String)) (rest : List (Option String)) :
    volLoop p b name top (none :: rest) = volLoop p b name top rest ∧
    volLoop p b name top (some "" :: rest) = volLoop p b name top rest := by
  constructor
  · rfl
  · simp [volLoop]

/-- C8 counterexample: the two volume-name checks are not mutually
exclusive: on a non-core service with mount `":/data"` and a top-level
mapping `{data}` (which does not contain the empty name), the rule emits
both `VolumeNameMissing` and `BindMountNotAllowed` for the same mount. -/
theorem claim_volume_checks_not_exclusive_cex :
    validateComposeAndComposeServicesVolumes sampleParams cEmptyName false "s" =
      [Violation.volumeNameMissing "s", Violation.bindMountNotAllowed "s" ""] ∧
    Violation.bindMountNotAllowed "s" "" ∈
      validateComposeAndComposeServicesVolumes sampleParams cEmptyName false "s" :=
  ⟨by decide, by decide⟩

/-- C8 amended: the two checks run independently (there is no `else`): a
non-empty mount of a non-core service with the top-level mapping present
yields no violation when its first `:`-segment is a declared volume name;
yields exactly `BindMountNotAllowed` when the non-empty name is absent from
the mapping; and when the first segment is empty it yields `VolumeNameMissing`
and additionally `BindMountNotAllowed` whenever the empty name is (as usual)
not among the top-level names. -/
theorem claim_volume_checks_independent (p : Params) (b : Bool) (name : String)
    (names : List String) (s : String) (n : String)
    (hs : (s == "") = false)
    (hn : (jsSplit s ':').headD "" = n) :
    ((n == "") = false → n ∈ names →
      volLoop p b name (some names) [some s] = []) ∧
    ((n == "") = false → b = false → n ∉ names →
      volLoop p b name (some names) [some s] =
        [Violation.bindMountNotAllowed name n]) ∧
    ((n == "") = true → b = false → n ∉ names →
      volLoop p b name (some names) [some s] =
        [Violation.volumeNameMissing name, Violation.bindMountNotAllowed name n]) := by
  have hred : volLoop p b name (some names) [some s] =
      (if n == "" then [Violation.volumeNameMissing name] else []) ++
        ((if !b && !(names.contains n) then [Violation.bindMountNotAllowed name n]
          else []) ++ []) := by
    unfold volLoop
    rw [hs, hn]
    rfl
  refine ⟨?_, ?_, ?_⟩
  · intro h1 h2
    rw [hred]
    simp [h1, h2]
  · intro h1 hb h2
    subst hb
    rw [hred]
    simp [h1, h2]
  · intro h1 hb h2
    subst hb
    rw [hred]
    simp [h1, h2]

theorem claim_volume_checks_independent_witness :
    volLoop sampleParams false "s" (some ["data"]) [some ":/data"] =
      [Violation.volumeNameMissing "s", Violation.bindMountNotAllowed "s" ""] :=
  (claim_volume_checks_independent sampleParams false "s" ["data"] ":/data" ""
    (by decide) (by decide)).2.2 (by decide) rfl (by decide)

/-- C6: the run is a pure function of the compose and the core flag as far as
the collected violation list goes: it resets the shared collector's `errors`
on entry, so the list it ends with is independent of any prior state of the
global aggregate error, and running validation twice on identical input
yields identical violation lists. (The compose and manifest are consumed as
immutable values; only the global aggregate error is written.) -/
theorem claim_validation_deterministic (p : Params) (c : Compose) (b : Bool)
    (g g' : AggState) :
    (validateDappnodeCompose p g c b).2.errors =
      (validateDappnodeCompose p g' c b).2.errors ∧
    (validateDappnodeCompose p (validateDappnodeCompose p g c b).2 c b).2.errors =
      (validateDappnodeCompose p g c b).2.errors := by
  constructor <;> rw [validateDappnodeCompose_errors_eq, validateDappnodeCompose_errors_eq]

/-- C7 counterexample: on a fresh collector and a compose with exactly one
violation, the aggregate rejection's message is not the plain
newline-joined list of violation messages: the `catch` block's
`e.message += e.message + "\n" + errors.join("\n")` prepends a newline, and
`Array.prototype.join` stringifies each `Error` as `"Error: " + message`. -/
theorem claim_aggregate_message_cex :
    (validateDappnodeCompose sampleParams ⟨[], ""⟩ c30 false).1 =
      Except.error (RunErr.aggregate
        "\nError: Compose version 3.0 is not supported. Minimum version is 3.4") ∧
    "\nError: Compose version 3.0 is not supported. Minimum version is 3.4" ≠
      specAggregateMessage sampleParams [Violation.versionTooLow "3.0"] ∧
    (validateDappnodeCompose sampleParams ⟨[], ""⟩ c30 false).2.errors =
      [Violation.versionTooLow "3.0"] :=
  ⟨by decide, by decide, by decide⟩

/-- C7 amended: violations are collected, not thrown, and — provided no rule
itself throws (an unparseable version or a truthy non-string `pid` throws
mid-run, bypassing the remaining rules) — success or failure is decided only
after every rule has run: with no violation the run returns successfully
with no output, and with violations it throws a single aggregate rejection
whose message is the collector's previous message doubled, then a newline,
then the ordered `"Error: "`-prefixed violation messages joined with newline
separators (so on a fresh collector: a leading newline plus the joined
`Error` strings). -/
theorem claim_aggregate_message_format (p : Params) (g : AggState) (c : Compose)
    (b : Bool) (es : List Violation)
    (h : collectAll p c b = (es, none)) :
    (es = [] → validateDappnodeCompose p g c b = (Except.ok (), ⟨[], g.message⟩)) ∧
    (es ≠ [] → validateDappnodeCompose p g c b =
      (Except.error (RunErr.aggregate
        (g.message ++ (g.message ++ ("\n" ++ joinErrorStrings p es)))),
       ⟨es, g.message ++ (g.message ++ ("\n" ++ joinErrorStrings p es))⟩)) := by
  constructor
  · intro he
    subst he
    simp [validateDappnodeCompose, h]
  · intro he
    have hne : es.isEmpty = false := by
      cases es with
      | nil => exact absurd rfl he
      | cons x xs => rfl
    simp [validateDappnodeCompose, h, hne]

theorem claim_aggregate_message_format_witness :
    validateDappnodeCompose sampleParams ⟨[], ""⟩ c30 false =
      (Except.error (RunErr.aggregate
        ("" ++ ("" ++ ("\n" ++
          joinErrorStrings sampleParams [Violation.versionTooLow "3.0"])))),
       ⟨[Violation.versionTooLow "3.0"],
        "" ++ ("" ++ ("\n" ++
          joinErrorStrings sampleParams [Violation.versionTooLow "3.0"]))⟩) :=
  (claim_aggregate_message_format sampleParams ⟨[], ""⟩ c30 false
    [Violation.versionTooLow "3.0"] (by decide)).2 (by decide)

end DappnodeCompose
